import Mathlib

/-!
Verification of the `learning-rust` repository: shallow embedding of the
three binaries (`guess_basic.rs`, `guess_with_random.rs`,
`native_compound_types.rs`) together with proofs of the specified
properties.

Conventions of the embedding:
  * Rust `u32` values are `Nat` with an explicit bound `< 2^32` where the
    source can reject an overflowing value.
  * stdin is a finite list of lines (each line as delivered by
    `read_line`, i.e. usually ending in a newline); stdout is the list of
    strings passed to `println!`, in order.
  * The random draw `rand::rng().random_range(1..=100)` is modelled as a
    function of an arbitrary generator value, constrained to land in
    `[1, 100]` as the library documents.
-/

set_option autoImplicit false

namespace LearningRust

/-- The characters the Rust function `str::trim` removes: the Unicode `White_Space`
property (code points U+0009–U+000D, U+0020, U+0085, U+00A0, U+1680,
U+2000–U+200A, U+2028, U+2029, U+202F, U+205F, U+3000). -/
def isRustWhitespace (c : Char) : Bool :=
  (0x9 ≤ c.toNat && c.toNat ≤ 0xD) || c.toNat = 0x20 || c.toNat = 0x85 ||
  c.toNat = 0xA0 || c.toNat = 0x1680 ||
  (0x2000 ≤ c.toNat && c.toNat ≤ 0x200A) || c.toNat = 0x2028 ||
  c.toNat = 0x2029 || c.toNat = 0x202F || c.toNat = 0x205F ||
  c.toNat = 0x3000

/-- Remove leading and trailing whitespace from a character list. -/
def trimChars (cs : List Char) : List Char :=
  ((cs.dropWhile isRustWhitespace).reverse.dropWhile isRustWhitespace).reverse

/-- Embedding of Rust `str::trim`. -/
def strTrim (s : String) : String :=
  ⟨trimChars s.data⟩

/-- ASCII decimal digit test, as used by integer parsing (`char::to_digit 10`). -/
def isAsciiDigit (c : Char) : Bool :=
  48 ≤ c.toNat && c.toNat ≤ 57

/-- Numeric value of an ASCII digit character. -/
def digitVal (c : Char) : Nat :=
  c.toNat - 48

/-- Value of a list of ASCII digit characters read in base 10. -/
def digitsToNat (cs : List Char) : Nat :=
  cs.foldl (fun a c => a * 10 + digitVal c) 0

/-- One more than `u32::MAX`. -/
def U32_LIMIT : Nat := 4294967296

/-- The `u32` parsing strips at most one leading plus sign; a minus sign is
not accepted for an unsigned type and is left in place (to be rejected as a
non-digit). -/
def stripPlusSign (cs : List Char) : List Char :=
  match cs with
  | [] => []
  | c :: rest => if c = '+' then rest else c :: rest

/-- Core of `u32` parsing after sign stripping: a nonempty run of ASCII
digits whose value fits in 32 bits; everything else is a parse error. -/
def parseDigits (ds : List Char) : Option Nat :=
  if ds.isEmpty then none
  else if ds.all isAsciiDigit then
    if digitsToNat ds < U32_LIMIT then some (digitsToNat ds) else none
  else none

/-- Embedding of `str::parse::<u32>` (`u32::from_str`): an optional leading
plus sign, then a nonempty run of ASCII digits whose value fits in 32 bits;
everything else is a parse error (`none`). -/
def parse_u32 (s : String) : Option Nat :=
  parseDigits (stripPlusSign s.data)

/-! ### The guessing game (`src/bin/guess_with_random.rs`) -/

/-- What one iteration of the `loop` in `main` does to control flow:
fall through to the next iteration, break out via the quit branch, or
break out via the win branch. -/
inductive IterAction
  | next
  | quitGame
  | winGame
deriving DecidableEq

/-- `println!("Please input your guess:")` at the top of each iteration. -/
def promptMsg : String := "Please input your guess:"

/-- The parse-failure message. -/
def retryMsg : String := "Please type a number or \u0027quit\u0027!"

/-- One iteration of the loop body of `main` in `guess_with_random.rs`,
given the secret number and the line delivered by `read_line`: the
strings printed during the iteration, and the control-flow outcome. -/
def stepGuess (secret : Nat) (line : String) : List String × IterAction :=
  let g := strTrim line
  if g = "quit" then
    ([promptMsg, "Goodbye!"], IterAction.quitGame)
  else
    match parse_u32 g with
    | none => ([promptMsg, retryMsg], IterAction.next)
    | some n =>
      if n < secret then
        ([promptMsg, "You guessed: " ++ toString n, "Too small!"], IterAction.next)
      else if secret < n then
        ([promptMsg, "You guessed: " ++ toString n, "Too big!"], IterAction.next)
      else
        ([promptMsg, "You guessed: " ++ toString n, "You win!"], IterAction.winGame)

/-- How a finite run of the loop ends: break from the quit branch, break
from the win branch, or the supplied input lines ran out with the loop
still going. -/
inductive GameResult
  | quitEnd
  | winEnd
  | inputExhausted
deriving DecidableEq

/-- Run the loop of `main` on a finite list of input lines: everything
printed inside the loop, and how the run ended. -/
def runGame (secret : Nat) : List String → List String × GameResult
  | [] => ([], GameResult.inputExhausted)
  | line :: rest =>
    match stepGuess secret line with
    | (out, IterAction.next) =>
      let r := runGame secret rest
      (out ++ r.1, r.2)
    | (out, IterAction.quitGame) => (out, GameResult.quitEnd)
    | (out, IterAction.winGame) => (out, GameResult.winEnd)

/-- The two `println!` calls before the loop. -/
def gameIntro : List String := ["Guess the number!", "Type \u0027quit\u0027 to exit."]

/-- Everything `main` of `guess_with_random.rs` prints on a run with the
given secret and input lines. -/
def programOutput (secret : Nat) (inputs : List String) : List String :=
  gameIntro ++ (runGame secret inputs).1

/-- Models the library call `rand::rng().random_range(1..=100)`: for any
generator value `r` the result lies in the closed range `[1, 100]`. -/
def random_range_1_100 (r : Nat) : Nat :=
  1 + r % 100

/-- The phase of the loop: still awaiting a guess, or finished by win or quit. -/
inductive GameStatus
  | awaiting
  | won
  | quitted
deriving DecidableEq

/-- The whole state of `main`: the binding `let secret_number` (never
reassigned in the source) plus the loop phase. -/
structure GameState where
  secret : Nat
  status : GameStatus
deriving DecidableEq

/-- The state after `let secret_number = rand::rng().random_range(1..=100);`. -/
def initState (r : Nat) : GameState :=
  ⟨random_range_1_100 r, GameStatus.awaiting⟩

/-- One iteration of the loop viewed as a state transition: the source
loop body reads `secret_number` but never writes it. -/
def stepState (st : GameState) (line : String) : GameState × List String :=
  match stepGuess st.secret line with
  | (out, IterAction.next) => (⟨st.secret, GameStatus.awaiting⟩, out)
  | (out, IterAction.quitGame) => (⟨st.secret, GameStatus.quitted⟩, out)
  | (out, IterAction.winGame) => (⟨st.secret, GameStatus.won⟩, out)

/-! ### The echo program (`src/bin/guess_basic.rs`) -/

/-- The `io::Result` returned by `read_line`: the line read (with its
trailing newline), or an I/O error. -/
inductive ReadResult
  | ok (line : String)
  | err

/-- The two `println!` calls made before the read. -/
def echoIntro : List String := ["Guess the number!", "Please input your guess."]

/-- `main` of `guess_basic.rs`: the lines printed to stdout, and
`some msg` when the program panics via `.expect(msg)` because the read
failed. -/
def guess_basic_main (read : ReadResult) : List String × Option String :=
  match read with
  | ReadResult.err => (echoIntro, some "Failed to read line")
  | ReadResult.ok line => (echoIntro ++ ["You guessed: " ++ line], none)

/-! ### The compound-type demo (`src/bin/native_compound_types.rs`)

`f64` literals are embedded as rationals; the demo only constructs and
projects these values, so no floating-point arithmetic is involved. -/

/-- `let tup: (i32, f64, u8) = (500, 6.4, 1);` -/
def tup : Int × ℚ × Nat := (500, 6.4, 1)

/-- `let (x, y, z) = tup;` — the three components of `tup`. -/
def x : Int := tup.1

/-- Second component of `tup`. -/
def y : ℚ := tup.2.1

/-- Third component of `tup`. -/
def z : Nat := tup.2.2

/-- `let tup2 = (500, 6.4, 1);` (inferred `(i32, f64, i32)`). -/
def tup2 : Int × ℚ × Int := (500, 6.4, 1)

/-- `let lst: [i32; 5] = [1, 2, 3, 4, 5];` -/
def lst : List Int := [1, 2, 3, 4, 5]

/-- `let first = lst[0];` -/
def first : Int := lst.getD 0 0

/-- `let lst2 = [1, 2, 3, 4, 5];` -/
def lst2 : List Int := [1, 2, 3, 4, 5]

/-- A value as it appears in one of the `println!` calls of the demo. -/
inductive PrintedVal
  | int (n : Int)
  | flt (q : ℚ)
deriving DecidableEq

/-- `main` of `native_compound_types.rs`: the four printed lines, each as
its constant leading text together with the interpolated value. -/
def native_compound_main : List (String × PrintedVal) :=
  [("The value of y is: ", PrintedVal.flt y),
   ("The third value is: ", PrintedVal.int tup2.2.2),
   ("The first element of the array is: ", PrintedVal.int first),
   ("The second element of lst2 is: ", PrintedVal.int (lst2.getD 1 0))]

/-! ### Helper lemmas about one loop iteration -/

theorem stepGuess_quit (secret : Nat) (line : String) (h : strTrim line = "quit") :
    stepGuess secret line = ([promptMsg, "Goodbye!"], IterAction.quitGame) := by
  simp [stepGuess, h]

theorem stepGuess_retry (secret : Nat) (line : String) (hq : strTrim line ≠ "quit")
    (hp : parse_u32 (strTrim line) = none) :
    stepGuess secret line = ([promptMsg, retryMsg], IterAction.next) := by
  simp [stepGuess, hq, hp]

theorem stepGuess_less (secret n : Nat) (line : String) (hq : strTrim line ≠ "quit")
    (hp : parse_u32 (strTrim line) = some n) (hlt : n < secret) :
    stepGuess secret line =
      ([promptMsg, "You guessed: " ++ toString n, "Too small!"], IterAction.next) := by
  simp [stepGuess, hq, hp, hlt]

theorem stepGuess_greater (secret n : Nat) (line : String) (hq : strTrim line ≠ "quit")
    (hp : parse_u32 (strTrim line) = some n) (hgt : secret < n) :
    stepGuess secret line =
      ([promptMsg, "You guessed: " ++ toString n, "Too big!"], IterAction.next) := by
  simp [stepGuess, hq, hp, Nat.lt_asymm hgt, hgt]

theorem stepGuess_equal (secret : Nat) (line : String) (hq : strTrim line ≠ "quit")
    (hp : parse_u32 (strTrim line) = some secret) :
    stepGuess secret line =
      ([promptMsg, "You guessed: " ++ toString secret, "You win!"], IterAction.winGame) := by
  simp [stepGuess, hq, hp]

theorem parse_u32_lt (s : String) (n : Nat) (h : parse_u32 s = some n) :
    n < U32_LIMIT := by
  simp only [parse_u32, parseDigits] at h
  split_ifs at h with h1 h2 h3
  · injection h with h4
    rw [h4] at h3
    exact h3

/-! ### C1 -/

/-- **C1**: for every successfully parsed numeric guess, a guess strictly
below the secret prints "Too small!" and the loop continues, a guess
strictly above prints "Too big!" and the loop continues, and the loop
prints the win message and terminates exactly when the guess equals the
secret. -/
theorem C1_parsed_guess_feedback (secret n : Nat) (line : String)
    (hq : strTrim line ≠ "quit") (hp : parse_u32 (strTrim line) = some n) :
    (n < secret → stepGuess secret line =
      ([promptMsg, "You guessed: " ++ toString n, "Too small!"], IterAction.next)) ∧
    (secret < n → stepGuess secret line =
      ([promptMsg, "You guessed: " ++ toString n, "Too big!"], IterAction.next)) ∧
    (n = secret → stepGuess secret line =
      ([promptMsg, "You guessed: " ++ toString n, "You win!"], IterAction.winGame)) ∧
    ((stepGuess secret line).2 = IterAction.winGame ↔ n = secret) := by
  refine ⟨fun hlt => stepGuess_less secret n line hq hp hlt,
    fun hgt => stepGuess_greater secret n line hq hp hgt,
    fun heq => by rw [heq] at hp ⊢; exact stepGuess_equal secret line hq hp, ?_⟩
  constructor
  · intro hwin
    rcases Nat.lt_trichotomy n secret with hlt | heq | hgt
    · rw [stepGuess_less secret n line hq hp hlt] at hwin
      cases hwin
    · exact heq
    · rw [stepGuess_greater secret n line hq hp hgt] at hwin
      cases hwin
  · intro heq
    rw [heq] at hp
    rw [stepGuess_equal secret line hq hp]

theorem C1_parsed_guess_feedback_witness :
    (3 < 5 → stepGuess 5 "3\n" =
      ([promptMsg, "You guessed: " ++ toString 3, "Too small!"], IterAction.next)) ∧
    (5 < 3 → stepGuess 5 "3\n" =
      ([promptMsg, "You guessed: " ++ toString 3, "Too big!"], IterAction.next)) ∧
    (3 = 5 → stepGuess 5 "3\n" =
      ([promptMsg, "You guessed: " ++ toString 3, "You win!"], IterAction.winGame)) ∧
    ((stepGuess 5 "3\n").2 = IterAction.winGame ↔ 3 = 5) :=
  C1_parsed_guess_feedback 5 3 "3\n" (by decide) (by decide)

/-! ### C2 -/

/-- **C2** counterexample: the runs on input lines `["50", "quit"]` with
secrets 60 and 40 both process the quit line (both end by quitting and
print the farewell), yet their outputs differ — the quit run does reveal
information about the secret through the feedback printed for earlier
numeric guesses, so the output is not identical for every secret. -/
theorem C2_counterexample :
    strTrim "quit" = "quit" ∧
    (runGame 60 ["50", "quit"]).2 = GameResult.quitEnd ∧
    (runGame 40 ["50", "quit"]).2 = GameResult.quitEnd ∧
    "Goodbye!" ∈ (runGame 60 ["50", "quit"]).1 ∧
    (runGame 60 ["50", "quit"]).1 ≠ (runGame 40 ["50", "quit"]).1 := by
  decide

/-- **C2** (amended): whenever the trimmed input equals the quit keyword
the game prints the farewell and terminates normally; and for runs in
which no line before the quit line successfully parses as a number, the
entire output is identical for every possible value of the secret. -/
theorem C2_quit_terminates_no_leak (s₁ s₂ : Nat) (pre rest : List String) (q : String)
    (hpre : ∀ l ∈ pre, strTrim l ≠ "quit" ∧ parse_u32 (strTrim l) = none)
    (hq : strTrim q = "quit") :
    runGame s₁ (pre ++ q :: rest) = runGame s₂ (pre ++ q :: rest) ∧
    (runGame s₁ (pre ++ q :: rest)).2 = GameResult.quitEnd ∧
    "Goodbye!" ∈ (runGame s₁ (pre ++ q :: rest)).1 := by
  induction pre with
  | nil =>
    rw [List.nil_append, runGame, runGame, stepGuess_quit s₁ q hq, stepGuess_quit s₂ q hq]
    exact ⟨rfl, rfl, by simp⟩
  | cons l ls ih =>
    have hl := hpre l (List.mem_cons_self l ls)
    have hrest : ∀ m ∈ ls, strTrim m ≠ "quit" ∧ parse_u32 (strTrim m) = none :=
      fun m hm => hpre m (List.mem_cons_of_mem l hm)
    obtain ⟨e1, e2, e3⟩ := ih hrest
    rw [List.cons_append, runGame, runGame,
      stepGuess_retry s₁ l hl.1 hl.2, stepGuess_retry s₂ l hl.1 hl.2]
    refine ⟨by rw [e1], e2, ?_⟩
    simp only [List.mem_append]
    exact Or.inr e3

theorem C2_quit_terminates_no_leak_witness :
    runGame 13 (["abc"] ++ " quit \n" :: []) = runGame 87 (["abc"] ++ " quit \n" :: []) ∧
    (runGame 13 (["abc"] ++ " quit \n" :: [])).2 = GameResult.quitEnd ∧
    "Goodbye!" ∈ (runGame 13 (["abc"] ++ " quit \n" :: [])).1 :=
  C2_quit_terminates_no_leak 13 87 ["abc"] [] " quit \n" (by decide) (by decide)

/-! ### C3 -/

/-- **C3**: for every input line whose trimmed text is neither the quit
keyword nor parseable as a `u32`, the loop body prints the retry message
and falls through to the next iteration; as a state transition it leaves
the secret unchanged and the machine still awaiting a guess; and for any
number `k` of such lines in a row the loop neither wins nor quits. -/
theorem C3_invalid_input_retries (secret : Nat) (st : GameState) (line : String) (k : Nat)
    (hq : strTrim line ≠ "quit") (hp : parse_u32 (strTrim line) = none) :
    stepGuess secret line = ([promptMsg, retryMsg], IterAction.next) ∧
    stepState st line = (⟨st.secret, GameStatus.awaiting⟩, [promptMsg, retryMsg]) ∧
    (runGame secret (List.replicate k line)).2 = GameResult.inputExhausted := by
  have h := stepGuess_retry secret line hq hp
  refine ⟨h, ?_, ?_⟩
  · rw [stepState, stepGuess_retry st.secret line hq hp]
  · induction k with
    | zero => rfl
    | succ m ih =>
      rw [List.replicate_succ, runGame, h]
      exact ih

theorem C3_invalid_input_retries_witness :
    stepGuess 7 "abc\n" = ([promptMsg, retryMsg], IterAction.next) ∧
    stepState ⟨7, GameStatus.awaiting⟩ "abc\n" =
      (⟨7, GameStatus.awaiting⟩, [promptMsg, retryMsg]) ∧
    (runGame 7 (List.replicate 3 "abc\n")).2 = GameResult.inputExhausted :=
  C3_invalid_input_retries 7 ⟨7, GameStatus.awaiting⟩ "abc\n" 3 (by decide) (by decide)

/-! ### C4 -/

/-- The three comparison-feedback messages of the game. -/
def feedbackMsgs : List String := ["Too small!", "Too big!", "You win!"]

/-- **C4**: with secret 42 and input lines "10", "100", "42", the game
produces the feedback outputs "Too small!", "Too big!", "You win!" in
that order, and the run terminates through the win branch. -/
theorem C4_example_run :
    ((runGame 42 ["10", "100", "42"]).1.filter (fun s => feedbackMsgs.contains s)) =
      ["Too small!", "Too big!", "You win!"] ∧
    (runGame 42 ["10", "100", "42"]).2 = GameResult.winEnd := by
  decide

/-! ### C5 -/

/-- **C5**: the secret is drawn once at start-up and lies in the closed
range `[1, 100]` for every generator value; the initial state is the
awaiting state carrying that draw; and no loop iteration ever changes the
secret component of the state. -/
theorem C5_secret_drawn_once_immutable (r : Nat) (st : GameState) (line : String) :
    1 ≤ (initState r).secret ∧ (initState r).secret ≤ 100 ∧
    initState r = ⟨random_range_1_100 r, GameStatus.awaiting⟩ ∧
    (stepState st line).1.secret = st.secret := by
  have hmod : r % 100 < 100 := Nat.mod_lt r (by norm_num)
  refine ⟨?_, ?_, rfl, ?_⟩
  · simp [initState, random_range_1_100]
  · simp only [initState, random_range_1_100]
    omega
  · rcases h : stepGuess st.secret line with ⟨out, act⟩
    rw [stepState, h]
    cases act <;> rfl

/-! ### C6 -/

/-- **C6** counterexample: on the line `"hi\n"` the program does not emit
the bare line anywhere; what it emits for the line is
`"You guessed: hi\n"`, preceded by two greeting lines. -/
theorem C6_counterexample :
    (guess_basic_main (ReadResult.ok "hi\n")).1 ≠ ["hi\n"] ∧
    "hi\n" ∉ (guess_basic_main (ReadResult.ok "hi\n")).1 ∧
    (guess_basic_main (ReadResult.ok "hi\n")).1.getLast? = some "You guessed: hi\n" := by
  decide

/-- **C6** (amended): the program reads exactly one line; on a successful
read it prints two greeting lines and then the line embedded in the
message `You guessed: `, including the trailing whitespace of the line,
and does not panic; if the read itself fails it panics with the message
`Failed to read line` after the two greeting lines. -/
theorem C6_echo_behaviour (line : String) :
    guess_basic_main (ReadResult.ok line) =
      (["Guess the number!", "Please input your guess.", "You guessed: " ++ line], none) ∧
    guess_basic_main ReadResult.err =
      (["Guess the number!", "Please input your guess."], some "Failed to read line") :=
  ⟨rfl, rfl⟩

/-! ### C7 -/

/-- The seven literal messages the claim allows. -/
def claimedOutputs : List String :=
  ["Guess the number!", "Please input your guess:", "Too small!", "Too big!",
   "You win!", "Please type a number or \u0027quit\u0027!", "Goodbye!"]

/-- **C7** counterexample: the game also prints the second intro line and
an echo of every parsed guess, neither of which is among the seven
claimed literals. -/
theorem C7_counterexample :
    "Type \u0027quit\u0027 to exit." ∈ programOutput 1 [] ∧
    "Type \u0027quit\u0027 to exit." ∉ claimedOutputs ∧
    "You guessed: 50" ∈ programOutput 1 ["50"] ∧
    "You guessed: 50" ∉ claimedOutputs := by
  decide

/-- The actual output vocabulary of the game: the seven claimed literals,
the second intro line, or the echo of a parsed guess below `2^32`. -/
def isAllowedOutput (s : String) : Prop :=
  s ∈ claimedOutputs ∨ s = "Type \u0027quit\u0027 to exit." ∨
    ∃ n : Nat, n < U32_LIMIT ∧ s = "You guessed: " ++ toString n

/-- Every string printed by one loop iteration is in the output vocabulary. -/
theorem stepGuess_outputs_allowed (secret : Nat) (line : String) :
    ∀ s ∈ (stepGuess secret line).1, isAllowedOutput s := by
  intro s hs
  by_cases hq : strTrim line = "quit"
  · rw [stepGuess_quit secret line hq] at hs
    simp only [List.mem_cons, List.not_mem_nil, or_false] at hs
    rcases hs with rfl | rfl
    · exact Or.inl (by decide)
    · exact Or.inl (by decide)
  · cases hp : parse_u32 (strTrim line) with
    | none =>
      rw [stepGuess_retry secret line hq hp] at hs
      simp only [List.mem_cons, List.not_mem_nil, or_false] at hs
      rcases hs with rfl | rfl
      · exact Or.inl (by decide)
      · exact Or.inl (by decide)
    | some n =>
      have hn : n < U32_LIMIT := parse_u32_lt _ n hp
      have echoAllowed : isAllowedOutput ("You guessed: " ++ toString n) :=
        Or.inr (Or.inr ⟨n, hn, rfl⟩)
      rcases Nat.lt_trichotomy n secret with hlt | heq | hgt
      · rw [stepGuess_less secret n line hq hp hlt] at hs
        simp only [List.mem_cons, List.not_mem_nil, or_false] at hs
        rcases hs with rfl | rfl | rfl
        · exact Or.inl (by decide)
        · exact echoAllowed
        · exact Or.inl (by decide)
      · subst heq
        rw [stepGuess_equal n line hq hp] at hs
        simp only [List.mem_cons, List.not_mem_nil, or_false] at hs
        rcases hs with rfl | rfl | rfl
        · exact Or.inl (by decide)
        · exact echoAllowed
        · exact Or.inl (by decide)
      · rw [stepGuess_greater secret n line hq hp hgt] at hs
        simp only [List.mem_cons, List.not_mem_nil, or_false] at hs
        rcases hs with rfl | rfl | rfl
        · exact Or.inl (by decide)
        · exact echoAllowed
        · exact Or.inl (by decide)

/-- Every string printed inside the loop is in the output vocabulary. -/
theorem runGame_outputs_allowed (secret : Nat) (inputs : List String) :
    ∀ s ∈ (runGame secret inputs).1, isAllowedOutput s := by
  induction inputs with
  | nil => intro s hs; cases hs
  | cons line rest ih =>
    intro s hs
    have hstep := stepGuess_outputs_allowed secret line
    rcases hact : stepGuess secret line with ⟨out, act⟩
    rw [hact] at hstep
    rw [runGame, hact] at hs
    cases act with
    | next =>
      rcases List.mem_append.mp hs with h | h
      · exact hstep s h
      · exact ih s h
    | quitGame => exact hstep s hs
    | winGame => exact hstep s hs

/-- **C7** (amended): every string the game writes is one of the seven
claimed literals, or the second intro line, or the echoed guess
`You guessed: n` for a successfully parsed `n < 2^32`. -/
theorem C7_output_vocabulary (secret : Nat) (inputs : List String) :
    ∀ s ∈ programOutput secret inputs, isAllowedOutput s := by
  intro s hs
  rw [programOutput] at hs
  rcases List.mem_append.mp hs with h | h
  · simp only [gameIntro, List.mem_cons, List.not_mem_nil, or_false] at h
    rcases h with rfl | rfl
    · exact Or.inl (by decide)
    · exact Or.inr (Or.inl rfl)
  · exact runGame_outputs_allowed secret inputs s h

theorem C7_output_vocabulary_witness : isAllowedOutput "Goodbye!" :=
  C7_output_vocabulary 1 ["quit"] "Goodbye!" (by decide)

/-! ### C8 -/

/-- **C8**: the compound-type demo prints exactly four lines; the second
component of the tuple literal `(500, 6.4, 1)` is `6.4`; the first
element of the array `[1,2,3,4,5]` is `1` and its second element is `2`;
and every literal index access is within bounds (each `get?` access
returns a value, and the tuple projections are total). -/
theorem C8_compound_demo :
    native_compound_main.length = 4 ∧
    y = 6.4 ∧ tup.2.1 = 6.4 ∧ tup2.2.2 = 1 ∧
    lst.get? 0 = some 1 ∧ first = 1 ∧ lst2.get? 1 = some 2 ∧
    native_compound_main.map Prod.snd =
      [PrintedVal.flt 6.4, PrintedVal.int 1, PrintedVal.int 1, PrintedVal.int 2] := by
  refine ⟨rfl, ?_, ?_, rfl, rfl, rfl, rfl, ?_⟩
  · norm_num [y, tup]
  · norm_num [tup]
  · norm_num [native_compound_main, y, tup, tup2, first, lst, lst2]

/-! ### C9 -/

theorem parseDigits_overflow (ds : List Char) (hbig : U32_LIMIT ≤ digitsToNat ds) :
    parseDigits ds = none := by
  rw [parseDigits]
  split_ifs with h1 h2 h3
  · rfl
  · exact absurd h3 (Nat.not_lt.mpr hbig)
  · rfl
  · rfl

/-- **C9**: a trimmed input that is a numeral outside the `u32` range is a
parse failure — a digit string whose value is at least `2^32` fails to
parse, a numeral with a leading minus sign fails to parse, and on any
parse failure the loop prints the retry message and continues, so the
out-of-range value is never compared against the secret. -/
theorem C9_out_of_range_is_parse_failure (secret : Nat) (ds cs : List Char) (line : String)
    (hds : ∀ c ∈ ds, isAsciiDigit c = true) (hbig : U32_LIMIT ≤ digitsToNat ds) :
    parse_u32 (String.mk ds) = none ∧
    parse_u32 (String.mk ('-' :: cs)) = none ∧
    (strTrim line ≠ "quit" → parse_u32 (strTrim line) = none →
      stepGuess secret line = ([promptMsg, retryMsg], IterAction.next)) := by
  refine ⟨?_, ?_, fun hq hp => stepGuess_retry secret line hq hp⟩
  · cases ds with
    | nil =>
      exfalso
      have h0 : digitsToNat ([] : List Char) = 0 := rfl
      rw [h0] at hbig
      exact absurd hbig (by decide)
    | cons c rest =>
      have hc : isAsciiDigit c = true := hds c (List.mem_cons_self c rest)
      have hcp : c ≠ '+' := by
        intro h
        rw [h] at hc
        exact absurd hc (by decide)
      have hstrip : stripPlusSign (c :: rest) = c :: rest := by
        rw [stripPlusSign]
        exact if_neg hcp
      show parseDigits (stripPlusSign (c :: rest)) = none
      rw [hstrip]
      exact parseDigits_overflow (c :: rest) hbig
  · have hstrip : stripPlusSign ('-' :: cs) = '-' :: cs := by
      rw [stripPlusSign]
      exact if_neg (by decide)
    show parseDigits (stripPlusSign ('-' :: cs)) = none
    rw [hstrip, parseDigits]
    split_ifs with h1 h2 h3
    · rfl
    · exfalso
      have hmem := List.all_eq_true.mp h2 '-' (List.mem_cons_self '-' cs)
      exact absurd hmem (by decide)
    · rfl
    · rfl

theorem C9_out_of_range_is_parse_failure_witness :
    parse_u32 (String.mk "5000000000".data) = none ∧
    parse_u32 (String.mk ('-' :: "5".data)) = none ∧
    stepGuess 42 "5000000000" = ([promptMsg, retryMsg], IterAction.next) := by
  have h := C9_out_of_range_is_parse_failure 42 "5000000000".data "5".data
    "5000000000" (by decide) (by decide)
  exact ⟨h.1, h.2.1, h.2.2 (by decide) (by decide)⟩

/-! ### C10 -/

/-- **C10**: for a fixed secret and a fixed finite input sequence the run
of the game is deterministic — two runs with the same secret and the same
inputs produce identical output and identical termination behaviour. The
embedding is a pure function of the secret and the input lines because
the source has no input other than stdin and no source of randomness
other than the initial draw. -/
theorem C10_deterministic_runs (s₁ s₂ : Nat) (i₁ i₂ : List String)
    (hs : s₁ = s₂) (hi : i₁ = i₂) :
    programOutput s₁ i₁ = programOutput s₂ i₂ ∧
    (runGame s₁ i₁).2 = (runGame s₂ i₂).2 := by
  subst hs
  subst hi
  exact ⟨rfl, rfl⟩

theorem C10_deterministic_runs_witness :
    programOutput 7 ["7"] = programOutput 7 ["7"] ∧
    (runGame 7 ["7"]).2 = (runGame 7 ["7"]).2 :=
  C10_deterministic_runs 7 7 ["7"] ["7"] rfl rfl

end LearningRust
